/-
Verification of the stock-tracker alert engine, price cache and daemon
coordination logic, as a shallow embedding in Lean 4.

Prices and timestamps are modelled as rationals (ℚ); Python dictionaries
are modelled as association lists; fallible values use Option.
-/
import Mathlib

namespace StockTracker

/-! ## Data model and operations -/

/-- A watch entry, as the daemon builds it from a (Stock, active Target)
pair: a dict with keys symbol, stock_id, target_id, target_type,
target_price, trim_percentage, alert_note (src/daemon.py, check_stocks). -/
structure Entry where
  symbol : String
  stock_id : Nat
  target_id : Nat
  target_type : String
  target_price : ℚ
  trim_percentage : Option ℚ
  alert_note : Option String
deriving DecidableEq, Repr

/-- The Alert value of src/src/alert_checker.py (class Alert): symbol,
current_price, target_price, target_type, trim_percentage (defaulting
to None when not passed). -/
structure Alert where
  symbol : String
  current_price : ℚ
  target_price : ℚ
  target_type : String
  trim_percentage : Option ℚ
deriving DecidableEq, Repr

/-- AlertChecker.check_alert (src/src/alert_checker.py, lines 55-85).
current_price is Optional; on None the function returns None.  Buy/DCA
trigger when current_price <= target_price; Sell/Trim trigger when
current_price >= target_price; any other target_type falls through to
the final `return None`.  For Buy/DCA the Alert is built without
trim_percentage (the Python default None); for Sell/Trim the entry's
trim_percentage is forwarded. -/
def check_alert (entry : Entry) (current_price : Option ℚ) : Option Alert :=
  match current_price with
  | none => none
  | some cp =>
    if entry.target_type = "Buy" ∨ entry.target_type = "DCA" then
      if cp ≤ entry.target_price then
        some ⟨entry.symbol, cp, entry.target_price, entry.target_type, none⟩
      else none
    else if entry.target_type = "Sell" ∨ entry.target_type = "Trim" then
      if entry.target_price ≤ cp then
        some ⟨entry.symbol, cp, entry.target_price, entry.target_type, entry.trim_percentage⟩
      else none
    else none

/-- Python `prices.get(symbol)` on a Dict[str, Optional[float]]: returns
None both when the key is absent and when the stored value is None. -/
def pricesGet (prices : List (String × Option ℚ)) (symbol : String) : Option ℚ :=
  match prices.lookup symbol with
  | some v => v
  | none => none

/-- AlertChecker.check_all_alerts (src/src/alert_checker.py, lines
87-109): iterate over the watchlist in order, look up each entry's
symbol in the price dict, delegate to check_alert, append triggered
alerts. -/
def check_all_alerts (watchlist : List Entry)
    (prices : List (String × Option ℚ)) : List Alert :=
  match watchlist with
  | [] => []
  | entry :: rest =>
    match check_alert entry (pricesGet prices entry.symbol) with
    | some alert => alert :: check_all_alerts rest prices
    | none => check_all_alerts rest prices

/-- Python dict assignment `cache[key] = val`: overwrite the existing
binding or append a new one. -/
def dictInsert {α : Type} (key : String) (val : α) :
    List (String × α) → List (String × α)
  | [] => [(key, val)]
  | (k, v) :: rest =>
    if k = key then (k, val) :: rest else (k, v) :: dictInsert key val rest

/-- StockFetcher._get_cached_or_fetch (src/src/stock_fetcher.py, lines
27-52), for a fixed effective ttl.  The cache maps keys to (data,
timestamp) pairs; `now` is the value of time.time() at the call.  If the
key is present and `now - timestamp < ttl`, the stored data is returned
and fetch_func is not invoked; otherwise fetch_func's result `fetch` is
stored under `now` and returned.  The Bool in the result records whether
fetch_func was invoked. -/
def getCachedOrFetch {α : Type} (cache : List (String × α × ℚ)) (key : String)
    (fetch : α) (ttl now : ℚ) : α × List (String × α × ℚ) × Bool :=
  match cache.lookup key with
  | some (data, timestamp) =>
    if now - timestamp < ttl then (data, cache, false)
    else (fetch, dictInsert key (fetch, now) cache, true)
  | none => (fetch, dictInsert key (fetch, now) cache, true)

/-- Lexicographic code-point comparison of character lists, the order
Python's `sorted` uses on strings: a strict initial segment sorts below
its extensions, otherwise the first differing character decides. -/
def charListLe : List Char → List Char → Bool
  | [], _ => true
  | _ :: _, [] => false
  | a :: as, b :: bs =>
    if a < b then true
    else if b < a then false
    else charListLe as bs

/-- Python string comparison, as used by `sorted(symbols)`. -/
def strLe (a b : String) : Bool := charListLe a.data b.data

/-- Python `sorted(symbols)`: the symbol list in ascending string order
(insertion sort; strings compared by code points). -/
def sortSymbols (symbols : List String) : List String :=
  symbols.insertionSort (fun a b => strLe a b = true)

/-- The cache key built by StockFetcher.get_multiple_prices
(src/src/stock_fetcher.py, line 201):
`"prices_" + "_".join(sorted(symbols))` — the symbol list is sorted but
not deduplicated. -/
def pricesCacheKey (symbols : List String) : String :=
  "prices_" ++ String.intercalate "_" (sortSymbols symbols)

/-- StockFetcher.get_multiple_prices (src/src/stock_fetcher.py, lines
188-248): on an empty symbol list return an empty dict without touching
the cache; otherwise route the batch fetch (whose would-be result is the
parameter `fetched`) through the cache under pricesCacheKey with
ttl = 60. -/
def get_multiple_prices
    (cache : List (String × List (String × Option ℚ) × ℚ))
    (symbols : List String) (fetched : List (String × Option ℚ)) (now : ℚ) :
    List (String × Option ℚ) × List (String × List (String × Option ℚ) × ℚ) × Bool :=
  if symbols = [] then ([], cache, false)
  else getCachedOrFetch cache (pricesCacheKey symbols) fetched 60 now

/-- One AlertHistory row as the daemon persists it
(src/daemon.py, db_manager.create_alert_history call, lines 97-105). -/
structure AlertHistoryRow where
  stock_id : Nat
  target_id : Nat
  current_price : ℚ
  target_price : ℚ
  target_type : String
  alert_note : Option String
  email_sent : Bool
deriving DecidableEq, Repr

/-- The matching predicate of src/daemon.py lines 90-92: a watchlist
entry matches an alert when symbol, target_type and target_price are all
equal. -/
def entryMatchesAlert (a : Alert) (e : Entry) : Bool :=
  e.symbol == a.symbol && e.target_type == a.target_type &&
    decide (e.target_price = a.target_price)

/-- src/daemon.py lines 89-94: `next((e for e in watchlist if ...), None)`
— the first watchlist entry matching the alert, if any. -/
def matching_entry (watchlist : List Entry) (a : Alert) : Option Entry :=
  watchlist.find? (entryMatchesAlert a)

/-- src/daemon.py lines 87-105: for every alert, look up the first
matching watchlist entry; when one exists, persist an AlertHistory row
with that entry's stock_id, target_id and alert_note, the alert's
prices and type, and email_sent = False (the code comment says "Will
update after sending"). -/
def recordAlerts (watchlist : List Entry) (alerts : List Alert) :
    List AlertHistoryRow :=
  alerts.filterMap fun a =>
    (matching_entry watchlist a).map fun e =>
      ⟨e.stock_id, e.target_id, a.current_price, a.target_price,
        a.target_type, e.alert_note, false⟩

/-- The alert-recording stage of check_stocks (src/daemon.py): run the
batch evaluation, then persist one row per alert that has a matching
entry. -/
def check_stocks_record (watchlist : List Entry)
    (prices : List (String × Option ℚ)) : List AlertHistoryRow :=
  recordAlerts watchlist (check_all_alerts watchlist prices)

/-- The notification stage of check_stocks (src/daemon.py, lines
126-152): channels are attempted, and on `email_success or
telegram_success` the code only logs — neither branch modifies the
persisted AlertHistory rows (the update announced by the comments at
lines 104 and 149-150 is absent). -/
def check_stocks_finalize (rows : List AlertHistoryRow)
    (email_success telegram_success : Bool) : List AlertHistoryRow :=
  if email_success || telegram_success then rows else rows

/-- The JSON body accepted by POST /stocks/<id>/targets
(src/web/routes/stocks.py, add_stock_target). -/
structure TargetRequest where
  target_type : Option String
  target_price : Option ℚ
  trim_percentage : Option ℚ
  alert_note : Option String
deriving DecidableEq, Repr

/-- A persisted Target row as db_manager.create_target stores it. -/
structure StoredTarget where
  stock_id : Nat
  target_type : String
  target_price : ℚ
  trim_percentage : Option ℚ
  alert_note : Option String
deriving DecidableEq, Repr

/-- Outcome of the web route: an error response with an HTTP status, or
a created target. -/
inductive WebResponse
  | error (msg : String) (code : Nat)
  | created (t : StoredTarget)
deriving DecidableEq, Repr

/-- Python truthiness of `data.get('target_type')`: absent or empty
string is falsy. -/
def truthyStr : Option String → Bool
  | none => false
  | some s => !(s == "")

/-- Python truthiness of `data.get('target_price')`: absent or zero is
falsy. -/
def truthyPrice : Option ℚ → Bool
  | none => false
  | some p => !(decide (p = 0))

/-- add_stock_target (src/web/routes/stocks.py, lines 344-374): 404 when
the stock does not exist; 400 when target_type or target_price is falsy;
otherwise create the target with whatever trim_percentage the body
carries (possibly absent) — there is no Trim-specific validation. -/
def add_stock_target (stock : Option Nat) (data : TargetRequest) : WebResponse :=
  match stock with
  | none => .error "Stock not found" 404
  | some stock_id =>
    if !(truthyStr data.target_type) || !(truthyPrice data.target_price) then
      .error "target_type and target_price are required" 400
    else
      .created ⟨stock_id, data.target_type.getD "", data.target_price.getD 0,
        data.trim_percentage, data.alert_note⟩

/-- The validation step of the CLI `add` command (src/cli.py, lines
188-190): a Trim target without --trim-percentage is rejected with a
descriptive error before anything is persisted; otherwise the target is
created. -/
def cli_add (target_type : String) (target_price : ℚ)
    (trim_percentage : Option ℚ) (alert_note : Option String)
    (stock_id : Nat) : Except String StoredTarget :=
  if target_type = "Trim" ∧ trim_percentage = none then
    .error "--trim-percentage is required for Trim type"
  else
    .ok ⟨stock_id, target_type, target_price, trim_percentage, alert_note⟩

/-! ## Theorems -/

/-- C1: for a present current_price, Buy/DCA entries trigger iff
current_price ≤ target_price, Sell/Trim entries trigger iff
current_price ≥ target_price, and exact equality triggers for all four
target types. -/
theorem check_alert_trigger_rule (e : Entry) (cp : ℚ) :
    ((e.target_type = "Buy" ∨ e.target_type = "DCA") →
      ((check_alert e (some cp)).isSome = true ↔ cp ≤ e.target_price)) ∧
    ((e.target_type = "Sell" ∨ e.target_type = "Trim") →
      ((check_alert e (some cp)).isSome = true ↔ e.target_price ≤ cp)) ∧
    ((e.target_type = "Buy" ∨ e.target_type = "DCA" ∨
      e.target_type = "Sell" ∨ e.target_type = "Trim") →
      cp = e.target_price → (check_alert e (some cp)).isSome = true) := by
  refine ⟨?_, ?_, ?_⟩
  · rintro (h | h) <;>
      by_cases hc : cp ≤ e.target_price <;>
      simp [check_alert, h, hc]
  · rintro (h | h) <;>
      by_cases hc : e.target_price ≤ cp <;>
      simp [check_alert, h, hc]
  · rintro (h | h | h | h) heq <;> subst heq <;> simp [check_alert, h]

/-- Witness for C1: a Buy entry at exactly the target price triggers. -/
theorem check_alert_trigger_rule_witness :
    (check_alert ⟨"AAPL", 1, 11, "Buy", 150, none, none⟩ (some 150)).isSome = true ↔
      (150 : ℚ) ≤ 150 :=
  (check_alert_trigger_rule ⟨"AAPL", 1, 11, "Buy", 150, none, none⟩ 150).1 (Or.inl rfl)

/-- C2: with an absent (None) current_price, check_alert returns None
for every entry, whatever its target_type. -/
theorem check_alert_none_price (e : Entry) : check_alert e none = none := rfl

lemma check_all_alerts_eq_filterMap (w : List Entry) (p : List (String × Option ℚ)) :
    check_all_alerts w p =
      w.filterMap (fun e => check_alert e (pricesGet p e.symbol)) := by
  induction w with
  | nil => rfl
  | cons e rest ih =>
    rw [check_all_alerts, List.filterMap_cons]
    cases check_alert e (pricesGet p e.symbol) <;> simp [ih]

/-- C3: check_all_alerts is exactly the in-order filterMap of check_alert
over the watchlist (so every entry is evaluated independently, with no
deduplication of repeated symbols, triggering entries keep their relative
order, and non-triggering entries contribute nothing); the output length
is at most the input length; and with an empty price dict the result is
empty. -/
theorem check_all_alerts_batch_shape (w : List Entry) (p : List (String × Option ℚ)) :
    check_all_alerts w p =
      w.filterMap (fun e => check_alert e (pricesGet p e.symbol)) ∧
    (check_all_alerts w p).length ≤ w.length ∧
    check_all_alerts w [] = [] := by
  refine ⟨check_all_alerts_eq_filterMap w p, ?_, ?_⟩
  · rw [check_all_alerts_eq_filterMap]
    exact List.length_filterMap_le _ _
  · rw [check_all_alerts_eq_filterMap]
    simp [pricesGet, check_alert]

/-- C10: an entry whose target_type is none of Buy, Sell, DCA, Trim never
produces an alert, for any current_price (present or absent). -/
theorem check_alert_unknown_type (e : Entry) (cp : Option ℚ)
    (h : e.target_type ∉ (["Buy", "Sell", "DCA", "Trim"] : List String)) :
    check_alert e cp = none := by
  simp only [List.mem_cons, List.not_mem_nil, or_false, not_or] at h
  obtain ⟨h1, h2, h3, h4⟩ := h
  cases cp with
  | none => rfl
  | some c => simp [check_alert, h1, h2, h3, h4]

/-- Witness for C10: a misspelled target_type "Hold" never triggers. -/
theorem check_alert_unknown_type_witness :
    check_alert ⟨"AAPL", 1, 11, "Hold", 150, none, none⟩ (some 100) = none :=
  check_alert_unknown_type ⟨"AAPL", 1, 11, "Hold", 150, none, none⟩ (some 100)
    (by decide)

lemma lookup_dictInsert_self {α : Type} (key : String) (val : α)
    (cache : List (String × α)) :
    (dictInsert key val cache).lookup key = some val := by
  induction cache with
  | nil => simp [dictInsert]
  | cons kv rest ih =>
    obtain ⟨k, v⟩ := kv
    by_cases hk : k = key
    · simp [dictInsert, hk, List.lookup]
    · have hk' : (key == k) = false := beq_eq_false_iff_ne.mpr (Ne.symm hk)
      simp [dictInsert, hk, List.lookup, hk', ih]

lemma getCachedOrFetch_two_calls {α : Type} (c : List (String × α × ℚ))
    (key : String) (f₁ f₂ : α) (ttl t0 t1 : ℚ)
    (hmiss : c.lookup key = none) :
    getCachedOrFetch c key f₁ ttl t0 = (f₁, dictInsert key (f₁, t0) c, true) ∧
    (t1 - t0 < ttl →
      getCachedOrFetch (dictInsert key (f₁, t0) c) key f₂ ttl t1
        = (f₁, dictInsert key (f₁, t0) c, false)) ∧
    (ttl ≤ t1 - t0 →
      getCachedOrFetch (dictInsert key (f₁, t0) c) key f₂ ttl t1
        = (f₂, dictInsert key (f₂, t1) (dictInsert key (f₁, t0) c), true)) := by
  refine ⟨by simp [getCachedOrFetch, hmiss], ?_, ?_⟩
  · intro hlive
    simp [getCachedOrFetch, lookup_dictInsert_self, hlive]
  · intro hstale
    simp [getCachedOrFetch, lookup_dictInsert_self, not_lt.mpr hstale]

/-- C4: starting from a cache with no entry for `key`, a first call
fetches and stores (f₁, t0); a second call at time t1 with the entry's
age t1 - t0 strictly below ttl returns the stored value without invoking
its fetch function (so across the two calls the fetch ran exactly once);
a second call with age ≥ ttl invokes its fetch function and stores the
fresh result with the new timestamp. -/
theorem cache_ttl_single_fetch {α : Type} (c : List (String × α × ℚ))
    (key : String) (f₁ f₂ : α) (ttl t0 t1 : ℚ)
    (hmiss : c.lookup key = none) :
    getCachedOrFetch c key f₁ ttl t0 = (f₁, dictInsert key (f₁, t0) c, true) ∧
    (t1 - t0 < ttl →
      getCachedOrFetch (dictInsert key (f₁, t0) c) key f₂ ttl t1
        = (f₁, dictInsert key (f₁, t0) c, false)) ∧
    (ttl ≤ t1 - t0 →
      getCachedOrFetch (dictInsert key (f₁, t0) c) key f₂ ttl t1
        = (f₂, dictInsert key (f₂, t1) (dictInsert key (f₁, t0) c), true)) :=
  getCachedOrFetch_two_calls c key f₁ f₂ ttl t0 t1 hmiss

/-- Witness for C4: key "AAPL", ttl 60, fetch at t0 = 0, re-request at
t1 = 30 (age below ttl): the stored price 150 comes back with no fetch. -/
theorem cache_ttl_single_fetch_witness :
    getCachedOrFetch (dictInsert "AAPL" ((150 : ℚ), 0) []) "AAPL" (151 : ℚ) 60 30
      = (150, dictInsert "AAPL" ((150 : ℚ), 0) [], false) :=
  (cache_ttl_single_fetch [] "AAPL" 150 151 60 0 30 rfl).2.1 (by norm_num)

/-- C6: a fetch that fails (returns the sentinel None) is cached exactly
like a success: the None is stored with the fetch timestamp, a second
call within ttl returns the stored None without re-fetching, and only a
call at age ≥ ttl re-invokes the fetch function. -/
theorem cache_failure_passthrough (c : List (String × Option ℚ × ℚ))
    (key : String) (f₂ : Option ℚ) (ttl t0 t1 : ℚ)
    (hmiss : c.lookup key = none) :
    getCachedOrFetch c key (none : Option ℚ) ttl t0
      = (none, dictInsert key (none, t0) c, true) ∧
    (t1 - t0 < ttl →
      getCachedOrFetch (dictInsert key ((none : Option ℚ), t0) c) key f₂ ttl t1
        = (none, dictInsert key (none, t0) c, false)) ∧
    (ttl ≤ t1 - t0 →
      getCachedOrFetch (dictInsert key ((none : Option ℚ), t0) c) key f₂ ttl t1
        = (f₂, dictInsert key (f₂, t1) (dictInsert key (none, t0) c), true)) :=
  getCachedOrFetch_two_calls c key none f₂ ttl t0 t1 hmiss

/-- Witness for C6: a failed fetch (None) for "ZZZZ" cached at t0 = 0
with ttl 60 is returned again at t1 = 30 without re-fetching. -/
theorem cache_failure_passthrough_witness :
    getCachedOrFetch (dictInsert "ZZZZ" ((none : Option ℚ), 0) []) "ZZZZ"
        (some (5 : ℚ)) 60 30
      = (none, dictInsert "ZZZZ" ((none : Option ℚ), 0) [], false) :=
  (cache_failure_passthrough [] "ZZZZ" (some 5) 60 0 30 rfl).2.1 (by norm_num)

lemma charListLe_total (a b : List Char) :
    charListLe a b = true ∨ charListLe b a = true := by
  induction a generalizing b with
  | nil => left; rfl
  | cons x xs ih =>
    cases b with
    | nil => right; rfl
    | cons y ys =>
      rcases lt_trichotomy x y with hxy | hxy | hxy
      · left; simp [charListLe, hxy]
      · subst hxy
        rcases ih ys with h | h
        · left; simp [charListLe, lt_irrefl, h]
        · right; simp [charListLe, lt_irrefl, h]
      · right; simp [charListLe, hxy]

lemma charListLe_trans (a b c : List Char) (hab : charListLe a b = true)
    (hbc : charListLe b c = true) : charListLe a c = true := by
  induction a generalizing b c with
  | nil => rfl
  | cons x xs ih =>
    cases b with
    | nil => simp [charListLe] at hab
    | cons y ys =>
      cases c with
      | nil => simp [charListLe] at hbc
      | cons z zs =>
        by_cases hxy : x < y
        · by_cases hyz : y < z
          · simp [charListLe, lt_trans hxy hyz]
          · by_cases hzy : z < y
            · simp [charListLe, hyz, hzy] at hbc
            · have hyzeq : y = z := le_antisymm (not_lt.mp hzy) (not_lt.mp hyz)
              subst hyzeq
              simp [charListLe, hxy]
        · by_cases hyx : y < x
          · simp [charListLe, hxy, hyx] at hab
          · have hxyeq : x = y := le_antisymm (not_lt.mp hyx) (not_lt.mp hxy)
            subst hxyeq
            simp only [charListLe, lt_irrefl, if_false] at hab
            by_cases hxz : x < z
            · simp [charListLe, hxz]
            · by_cases hzx : z < x
              · simp [charListLe, hxz, hzx] at hbc
              · have hxzeq : x = z := le_antisymm (not_lt.mp hzx) (not_lt.mp hxz)
                subst hxzeq
                simp only [charListLe, lt_irrefl, if_false] at hbc ⊢
                exact ih ys zs hab hbc

lemma charListLe_antisymm (a b : List Char) (hab : charListLe a b = true)
    (hba : charListLe b a = true) : a = b := by
  induction a generalizing b with
  | nil =>
    cases b with
    | nil => rfl
    | cons y ys => simp [charListLe] at hba
  | cons x xs ih =>
    cases b with
    | nil => simp [charListLe] at hab
    | cons y ys =>
      by_cases hxy : x < y
      · simp [charListLe, hxy, asymm hxy] at hba
      · by_cases hyx : y < x
        · simp [charListLe, hxy, hyx] at hab
        · have hxyeq : x = y := le_antisymm (not_lt.mp hyx) (not_lt.mp hxy)
          subst hxyeq
          simp only [charListLe, lt_irrefl, if_false] at hab hba
          rw [ih ys hab hba]

lemma sortSymbols_eq_of_perm (l₁ l₂ : List String) (h : l₁.Perm l₂) :
    sortSymbols l₁ = sortSymbols l₂ := by
  haveI : IsTotal String (fun a b => strLe a b = true) :=
    ⟨fun a b => charListLe_total a.data b.data⟩
  haveI : IsTrans String (fun a b => strLe a b = true) :=
    ⟨fun a b c => charListLe_trans a.data b.data c.data⟩
  haveI : IsAntisymm String (fun a b => strLe a b = true) :=
    ⟨fun a b hab hba => String.ext (charListLe_antisymm a.data b.data hab hba)⟩
  exact List.eq_of_perm_of_sorted
    ((List.perm_insertionSort _ l₁).trans (h.trans (List.perm_insertionSort _ l₂).symm))
    (List.sorted_insertionSort _ l₁) (List.sorted_insertionSort _ l₂)

/-- C5 (amended): the batch-price cache key depends only on the multiset
of symbols — any two symbol lists that are permutations of each other
produce the same key, and hence resolve to the same cache entry: after a
first call populates the cache, a permuted second call within the 60s
ttl is served from the stored entry without fetching. -/
theorem prices_cache_key_perm (l₁ l₂ : List String) (h : l₁.Perm l₂)
    (c : List (String × List (String × Option ℚ) × ℚ))
    (f₁ f₂ : List (String × Option ℚ)) (t0 t1 : ℚ)
    (hne : l₁ ≠ []) (hmiss : c.lookup (pricesCacheKey l₁) = none)
    (hlive : t1 - t0 < 60) :
    pricesCacheKey l₁ = pricesCacheKey l₂ ∧
    get_multiple_prices c l₁ f₁ t0
      = (f₁, dictInsert (pricesCacheKey l₁) (f₁, t0) c, true) ∧
    get_multiple_prices (dictInsert (pricesCacheKey l₁) (f₁, t0) c) l₂ f₂ t1
      = (f₁, dictInsert (pricesCacheKey l₁) (f₁, t0) c, false) := by
  have hkey : pricesCacheKey l₁ = pricesCacheKey l₂ := by
    unfold pricesCacheKey
    rw [sortSymbols_eq_of_perm l₁ l₂ h]
  have hne₂ : l₂ ≠ [] := by
    intro hnil
    subst hnil
    exact hne h.eq_nil
  refine ⟨hkey, ?_, ?_⟩
  · rw [get_multiple_prices, if_neg hne]
    exact (getCachedOrFetch_two_calls c (pricesCacheKey l₁) f₁ f₂ 60 t0 t1 hmiss).1
  · rw [get_multiple_prices, if_neg hne₂, ← hkey]
    exact (getCachedOrFetch_two_calls c (pricesCacheKey l₁) f₁ f₂ 60 t0 t1 hmiss).2.1
      hlive

/-- Witness for C5 (amended): [MSFT, AAPL] and [AAPL, MSFT] produce the
same cache key. -/
theorem prices_cache_key_perm_witness :
    pricesCacheKey ["MSFT", "AAPL"] = pricesCacheKey ["AAPL", "MSFT"] :=
  (prices_cache_key_perm ["MSFT", "AAPL"] ["AAPL", "MSFT"] (by decide)
    [] [("AAPL", some 150), ("MSFT", some 300)] [] 0 30
    (by decide) rfl (by norm_num)).1

/-- Counterexample to C5 as stated: the key is not deduplicated — the
lists [AAPL, AAPL] and [AAPL] contain the same set of symbols yet map to
different cache keys ("prices_AAPL_AAPL" vs "prices_AAPL"), so they do
not resolve to the same cache entry. -/
theorem prices_cache_key_not_dedup :
    (["AAPL", "AAPL"] : List String).toFinset = (["AAPL"] : List String).toFinset ∧
    pricesCacheKey ["AAPL", "AAPL"] ≠ pricesCacheKey ["AAPL"] := by
  constructor
  · decide
  · decide

/-- C7 (code bug): a cycle with one watch entry (AAPL Buy @ 150),
a fetched price of 149 (so the alert triggers) and a successful email
channel still leaves the persisted row with email_sent = false — the
notified flag never reflects the successful dispatch. -/
theorem daemon_notified_flag_never_updated :
    check_stocks_finalize
        (check_stocks_record [⟨"AAPL", 1, 11, "Buy", 150, none, none⟩]
          [("AAPL", some 149)])
        true false
      = [⟨1, 11, 149, 150, "Buy", none, false⟩] := by
  decide

/-- C9: an alert is attributed to the first watchlist entry, in entry
order, whose symbol, target_type and target_price equal the alert's
fields: if every entry before `e` fails the match and `e` matches, the
daemon resolves `e` and persists a row carrying e.stock_id and
e.target_id — so of two entries with identical symbol, type and price,
the earlier one's identifiers are used. -/
theorem daemon_first_match_attribution (w₁ w₂ : List Entry) (e : Entry)
    (a : Alert) (he : entryMatchesAlert a e = true)
    (hw : ∀ e' ∈ w₁, entryMatchesAlert a e' = false) :
    matching_entry (w₁ ++ e :: w₂) a = some e ∧
    recordAlerts (w₁ ++ e :: w₂) [a] =
      [⟨e.stock_id, e.target_id, a.current_price, a.target_price,
        a.target_type, e.alert_note, false⟩] := by
  have hfind : matching_entry (w₁ ++ e :: w₂) a = some e := by
    unfold matching_entry
    induction w₁ with
    | nil => simp [List.find?, he]
    | cons e' rest ih =>
      have h' : entryMatchesAlert a e' = false := hw e' (by simp)
      simp only [List.cons_append, List.find?, h']
      exact ih fun x hx => hw x (by simp [hx])
  exact ⟨hfind, by simp [recordAlerts, hfind]⟩

/-- Witness for C9: two entries identical in symbol, type and price but
with different stock/target ids — the earlier entry's ids (1, 11) are
used for the persisted row. -/
theorem daemon_first_match_attribution_witness :
    matching_entry
        [⟨"AAPL", 1, 11, "Buy", 150, none, none⟩,
         ⟨"AAPL", 2, 22, "Buy", 150, none, none⟩]
        ⟨"AAPL", 149, 150, "Buy", none⟩
      = some ⟨"AAPL", 1, 11, "Buy", 150, none, none⟩ ∧
    recordAlerts
        [⟨"AAPL", 1, 11, "Buy", 150, none, none⟩,
         ⟨"AAPL", 2, 22, "Buy", 150, none, none⟩]
        [⟨"AAPL", 149, 150, "Buy", none⟩]
      = [⟨1, 11, 149, 150, "Buy", none, false⟩] :=
  daemon_first_match_attribution []
    [⟨"AAPL", 2, 22, "Buy", 150, none, none⟩]
    ⟨"AAPL", 1, 11, "Buy", 150, none, none⟩
    ⟨"AAPL", 149, 150, "Buy", none⟩
    (by decide) (by intro e' h; exact absurd h (List.not_mem_nil e'))

/-- Counterexample to C8 as stated: the web creation route silently
persists a Trim target with no trim_percentage — posting
target_type = "Trim", target_price = 300 and no trim_percentage to an
existing stock returns 201 Created with a null percentage, with no
validation error. -/
theorem trim_validation_counterexample :
    add_stock_target (some 1) ⟨some "Trim", some 300, none, none⟩
      = WebResponse.created ⟨1, "Trim", 300, none, none⟩ := by
  decide

/-- C8 (amended): the CLI `add` command rejects a Trim target without
trim_percentage with a descriptive error, but the web route
add_stock_target performs no such check and persists the Trim target
with a null percentage (for any nonzero target_price, which its
truthiness check lets through). -/
theorem trim_validation_amended (p : ℚ) (hp : p ≠ 0) (note : Option String)
    (sid : Nat) :
    cli_add "Trim" p none note sid
      = Except.error "--trim-percentage is required for Trim type" ∧
    add_stock_target (some sid) ⟨some "Trim", some p, none, note⟩
      = WebResponse.created ⟨sid, "Trim", p, none, note⟩ := by
  constructor
  · simp [cli_add]
  · simp [add_stock_target, truthyStr, truthyPrice, hp]

/-- Witness for C8 (amended): Trim @ 300 with no percentage — rejected
by the CLI, persisted by the web route. -/
theorem trim_validation_amended_witness :
    cli_add "Trim" 300 none none 1
      = Except.error "--trim-percentage is required for Trim type" ∧
    add_stock_target (some 1) ⟨some "Trim", some 300, none, none⟩
      = WebResponse.created ⟨1, "Trim", 300, none, none⟩ :=
  trim_validation_amended 300 (by norm_num) none 1

end StockTracker
